import Mathlib

/-!
Verification of the dual-channel RPC correlation engine of `blender-mcp`
(`src/blender_mcp/reverse_mcp_client.py`, with `reverse_mcp.py` a
near-verbatim duplicate, and the dispatch loop of
`src/blender_mcp/reverse_bridge.py`).

Python strings are embedded as `List Char`; Python dictionaries whose keys
are strings are embedded as insertion-ordered association lists; JSON
values are the inductive type `JVal`.  Library calls (`json.loads`,
`json.dumps`, the Blender socket) are abstracted as explicit function
parameters; everything else is translated branch-for-branch from the
source.
-/

namespace BlenderMCP

/-- Convert a Lean string literal to the character-list embedding of a
Python string. -/
def pystr (s : String) : List Char := s.toList

/-- Python whitespace characters, as used by `str.strip()`. -/
def isPyWS (c : Char) : Bool :=
  c = ' ' || c = '\t' || c = '\n' || c = '\x0d' || c = '\x0b' || c = '\x0c'

/-- Embedding of Python `str.strip()`: drop whitespace from both ends. -/
def pyStrip (s : List Char) : List Char :=
  ((s.dropWhile isPyWS).reverse.dropWhile isPyWS).reverse

/-- Embedding of Python `str.startswith(p)`. -/
def pyStartsWith : List Char → List Char → Bool
  | _, [] => true
  | [], _ :: _ => false
  | c :: cs, p :: ps => if c = p then pyStartsWith cs ps else false

/-- If `sep` occurs in `s`, strip a leading `sep` from `s`, returning the
remainder; otherwise `none`. -/
def stripLeading : List Char → List Char → Option (List Char)
  | [], s => some s
  | _ :: _, [] => none
  | p :: ps, c :: cs => if p = c then stripLeading ps cs else none

/-- Find the first occurrence of `sep` in `s`; return the part before it
and the part after it. -/
def findSplit (sep : List Char) : List Char → Option (List Char × List Char)
  | [] => match stripLeading sep [] with
          | some r => some ([], r)
          | none => none
  | c :: cs =>
    match stripLeading sep (c :: cs) with
    | some rest => some ([], rest)
    | none =>
      match findSplit sep cs with
      | some (pre, post) => some (c :: pre, post)
      | none => none

/-- Embedding of the Python membership test `sep in s` for strings
(substring containment; `sep` is always nonempty where used). -/
def pyContainsSub (sep s : List Char) : Bool := (findSplit sep s).isSome

/-- Everything after the first occurrence of `sep` in `s`: the Python
expression `s.split(sep, 1)[1]`, used only where `sep` is known to occur
(returns `[]` otherwise). -/
def afterFirst (sep s : List Char) : List Char :=
  match findSplit sep s with
  | some (_, post) => post
  | none => []

/-- Everything before the first occurrence of `sep` in `s` (the whole of
`s` when `sep` does not occur): the Python expression `s.split(sep)[0]`. -/
def upToFirst (sep s : List Char) : List Char :=
  match findSplit sep s with
  | some (pre, _) => pre
  | none => s

/-- The second field of the Python expression `s.split(sep)`: the text
strictly between the first and second occurrences of `sep` (to the end of
`s` when `sep` occurs exactly once); `none` when `sep` does not occur
(Python raises `IndexError` there; every use site is guarded). -/
def secondField (sep s : List Char) : Option (List Char) :=
  match findSplit sep s with
  | none => none
  | some (_, post) =>
    match findSplit sep post with
    | none => some post
    | some (pre2, _) => some pre2

/-- Embedding of `message_endpoint.split('session_id=')[1].split('&')[0]`
(reverse_mcp_client.py line 240): the session-id extraction. -/
def pySessionExtract (me : List Char) : List Char :=
  upToFirst (pystr "&") ((secondField (pystr "session_id=") me).getD [])

/-- The spec's description of the extraction: "the substring between
`session_id=` and the next `&`" — everything after the first
`session_id=`, truncated at the first following `&`. -/
def specSessionOf (me : List Char) : List Char :=
  upToFirst (pystr "&") (afterFirst (pystr "session_id=") me)

/-! JSON values, as produced by `json.loads`. -/

/-- A decoded JSON value. -/
inductive JVal where
  | jnull
  | jbool (b : Bool)
  | jnum (n : Int)
  | jstr (s : List Char)
  | jarr (xs : List JVal)
  | jobj (kvs : List (List Char × JVal))

/-- Membership test for a string key in a Python dictionary embedded as an
insertion-ordered association list. -/
def dictHas (d : List (List Char × α)) (k : List Char) : Bool :=
  d.any (fun p => p.1 = k)

/-- Lookup of a string key in an embedded Python dictionary. -/
def dictGet? (d : List (List Char × α)) (k : List Char) : Option α :=
  (d.find? (fun p => p.1 = k)).map (fun p => p.2)

/-- Python dictionary assignment `d[k] = v`: replaces the value in place
when `k` is present (keeping insertion order), appends otherwise. -/
def dictSet (d : List (List Char × α)) (k : List Char) (v : α) :
    List (List Char × α) :=
  if dictHas d k then d.map (fun p => if p.1 = k then (k, v) else p)
  else d ++ [(k, v)]

/-- Python `d.pop(k, None)`'s effect on the dictionary: remove the entry
for `k` when present. -/
def dictPop (d : List (List Char × α)) (k : List Char) :
    List (List Char × α) :=
  d.filter (fun p => decide ¬(p.1 = k))

/-- Is this JSON value equal (in the Python sense) to the string `k`?
Only `str` values can compare equal to a string. -/
def JVal.eqStr (v : JVal) (k : List Char) : Bool :=
  match v with
  | .jstr t => t = k
  | _ => false

/-- Embedding of the Python membership test `k in v` for a decoded JSON
value `v` and string `k`: key membership for objects, element equality for
arrays, substring containment for strings; `none` models the `TypeError`
raised for `null`, booleans and numbers (which are not containers). -/
def pyContainsJ (k : List Char) (v : JVal) : Option Bool :=
  match v with
  | .jobj kvs => some (dictHas kvs k)
  | .jarr xs => some (xs.any (fun x => x.eqStr k))
  | .jstr s => some (pyContainsSub k s)
  | _ => none

/-- Embedding of the Python subscript `v[k]` for a string `k`: a value for
objects holding the key (`none` models the `KeyError` for objects without
it and the `TypeError` for every non-object value). -/
def pySubscriptJ (v : JVal) (k : List Char) : Option JVal :=
  match v with
  | .jobj kvs => dictGet? kvs k
  | _ => none

/-! Stream Reader (`sse_reader_thread`, reverse_mcp_client.py lines
256-286; duplicated as `sse_reader_thread_function` in reverse_mcp.py
lines 804-842).  The correlation table `pending_responses` maps a request
id (a string) to its single-use slot, embedded as the list of payloads
delivered to that slot's queue; the reverse queue is the FIFO list of
enqueued payloads. -/

/-- The shared state the reader thread writes to: the correlation table
(`pending_responses`) and the Reverse-Call Queue (`reverse_queue`). -/
structure ReaderState where
  pending : List (List Char × List JVal)
  reverseQueue : List JVal

/-- What the reader does with one decoded JSON payload. -/
inductive FrameAction where
  | enqueue (payload : JVal)
  | deliver (idKey : List Char) (payload : JVal)
  | discard

/-- Classification of one decoded JSON payload, translated from
reverse_mcp_client.py lines 274-280: `if 'reverse' in json_data: ...
elif 'id' in json_data: request_id = json_data['id']; if request_id in
pending_responses: pending_responses[request_id].put(json_data)`.
`none` models an uncaught exception (a `TypeError` from `in` on a
non-container, from subscripting a string or array, or from hashing an
unhashable id), which terminates the reader loop. -/
def classifyPayload (pending : List (List Char × List JVal)) (j : JVal) :
    Option FrameAction :=
  match pyContainsJ (pystr "reverse") j with
  | none => none
  | some true => some (.enqueue j)
  | some false =>
    match pyContainsJ (pystr "id") j with
    | none => none
    | some true =>
      match pySubscriptJ j (pystr "id") with
      | none => none
      | some idv =>
        match idv with
        | .jarr _ => none
        | .jobj _ => none
        | .jstr s =>
          if dictHas pending s then some (.deliver s j) else some .discard
        | _ => some .discard
    | some false => some .discard

/-- Apply one classified action to the reader's shared state:
`reverse_queue.put` appends to the FIFO; delivery appends the payload to
the registered slot's queue. -/
def applyAction (st : ReaderState) : FrameAction → ReaderState
  | .enqueue p => { st with reverseQueue := st.reverseQueue ++ [p] }
  | .deliver s p =>
    { st with
      pending := st.pending.map
        (fun q => if q.1 = s then (q.1, q.2 ++ [p]) else q) }
  | .discard => st

/-- One iteration of the reader loop on one input line
(reverse_mcp_client.py lines 264-283), parameterized by the `json.loads`
library function `loads` (`none` models `json.JSONDecodeError`).  The
result is the updated state, or `none` when an uncaught exception escapes
the `except json.JSONDecodeError` handler and ends the loop. -/
def sse_reader_step (loads : List Char → Option JVal) (st : ReaderState)
    (line : List Char) : Option ReaderState :=
  let line_str := pyStrip line
  if pyStartsWith line_str (pystr ":") then some st
  else if pyStartsWith line_str (pystr "data:") then
    let data_str := pyStrip (afterFirst (pystr ":") line_str)
    match loads data_str with
    | none => some st
    | some json_data =>
      match classifyPayload st.pending json_data with
      | none => none
      | some a => some (applyAction st a)
  else some st

/-- The reader loop over a finite list of stream lines, stopping early
(with a `true` crash flag) when an uncaught exception ends the thread. -/
def sse_reader_run (loads : List Char → Option JVal) (st : ReaderState) :
    List (List Char) → ReaderState × Bool
  | [] => (st, false)
  | l :: ls =>
    match sse_reader_step loads st l with
    | some st2 => sse_reader_run loads st2 ls
    | none => (st, true)

/-! RPC Client (`send_jsonrpc_request`, reverse_mcp_client.py lines
310-378; duplicated as
`send_this_jsonrpc_request_and_wait_for_this_response` in reverse_mcp.py
lines 865-960). -/

/-- Registration of a fresh request id in the correlation table:
`pending_responses[request_id] = response_queue` with a newly constructed
empty queue (reverse_mcp_client.py lines 322-324). -/
def register (table : List (List Char × List JVal)) (request_id : List Char) :
    List (List Char × List JVal) :=
  dictSet table request_id []

/-- The distinct exit paths of `send_jsonrpc_request`: a decoded result
delivered on the stream, the `queue.Empty` timeout path, and the
transport-failure path (POST exception or non-202 status). -/
inductive CallOutcome where
  | ok (v : JVal)
  | timedOut
  | transportError

/-- Everything observable about one `send_jsonrpc_request` call: the
serialized request envelope, the exit path taken, the correlation table
left behind, and whether the call blocked on the result slot. -/
structure CallResult where
  body : JVal
  outcome : CallOutcome
  table : List (List Char × List JVal)
  waited : Bool

/-- Embedding of `send_jsonrpc_request` (reverse_mcp_client.py lines
310-378).  The transport is abstracted: `postStatus` is the HTTP status of
the POST (`none` models an exception raised by the POST itself), and
`delivered` is the payload the reader thread puts into this request's slot
within `timeout_seconds` (`none` models `queue.Empty`).  The id is
registered first; the `finally` block pops it on every path. -/
def send_jsonrpc_request (table : List (List Char × List JVal))
    (request_id : List Char) (method : List Char) (params : JVal)
    (postStatus : Option Nat) (delivered : Option JVal) : CallResult :=
  let table1 := register table request_id
  let body : JVal := .jobj
    [(pystr "jsonrpc", .jstr (pystr "2.0")),
     (pystr "id", .jstr request_id),
     (pystr "method", .jstr method),
     (pystr "params", params)]
  if postStatus = some 202 then
    match delivered with
    | some v =>
      { body := body, outcome := .ok v,
        table := dictPop table1 request_id, waited := true }
    | none =>
      { body := body, outcome := .timedOut,
        table := dictPop table1 request_id, waited := true }
  else
    { body := body, outcome := .transportError,
      table := dictPop table1 request_id, waited := false }

/-- Everything observable about one `send_tool_reply` call
(reverse_mcp_client.py lines 381-431; duplicated in reverse_mcp.py lines
478-544): the serialized reply envelope, the returned boolean, the
correlation table afterwards, and whether the call waited on any slot. -/
structure ReplyResult where
  body : JVal
  ok : Bool
  table : List (List Char × List JVal)
  waited : Bool

/-- Embedding of `send_tool_reply`: builds the fixed `tools/reply`
envelope around the peer-supplied `call_id`, POSTs it, and returns whether
the POST was accepted with 202.  It performs no correlation-table
operation and no slot wait. -/
def send_tool_reply (table : List (List Char × List JVal)) (call_id : JVal)
    (result : JVal) (postStatus : Option Nat) : ReplyResult :=
  let reply_request : JVal := .jobj
    [(pystr "jsonrpc", .jstr (pystr "2.0")),
     (pystr "id", call_id),
     (pystr "method", .jstr (pystr "tools/reply")),
     (pystr "params", .jobj [(pystr "result", result)])]
  { body := reply_request,
    ok := postStatus = some 202,
    table := table,
    waited := false }

/-! Connection handshake (`connect_to_sse_endpoint`,
reverse_mcp_client.py lines 193-307; duplicated as
`connect_to_this_sse_endpoint_and_get_this_message_endpoint` in
reverse_mcp.py lines 729-861). -/

/-- The mutable locals of the handshake scan loop
(reverse_mcp_client.py lines 226-244). -/
structure ScanState where
  event_type : Option (List Char)
  message_endpoint : Option (List Char)
  session_id : Option (List Char)

/-- Python truthiness of an optional string: `None` and the empty string
are falsy. -/
def truthyOpt : Option (List Char) → Bool
  | none => false
  | some s => decide ¬(s = [])

/-- One iteration of the handshake scan loop on one (already decoded)
stream line; the boolean is the `break` flag. -/
def scanStep (s : ScanState) (rawLine : List Char) : ScanState × Bool :=
  let line := pyStrip rawLine
  if pyStartsWith line (pystr "event:") then
    ({ s with event_type := some (pyStrip (afterFirst (pystr ":") line)) },
     false)
  else if pyStartsWith line (pystr "data:") then
    let data := pyStrip (afterFirst (pystr ":") line)
    if s.event_type = some (pystr "endpoint") then
      let sid :=
        if pyContainsSub (pystr "session_id=") data then
          some (pySessionExtract data)
        else s.session_id
      ({ s with message_endpoint := some data, session_id := sid }, true)
    else (s, false)
  else if line = [] then (s, truthyOpt s.message_endpoint)
  else (s, false)

/-- The handshake scan loop `for _ in range(10)` over the first lines of
the stream; reading past the end of input yields the empty line a closed
stream produces. -/
def scanLines (s : ScanState) : Nat → List (List Char) → ScanState
  | 0, _ => s
  | fuel + 1, lines =>
    let line := lines.headD []
    let rest := lines.tail
    let step := scanStep s line
    if step.2 then step.1 else scanLines step.1 fuel rest

/-- The initial scan state: `event_type`, `message_endpoint` and
`session_id` all `None`. -/
def initScan : ScanState := ⟨none, none, none⟩

/-- The connection dictionary a successful handshake returns (the queues
start empty; the transport handles are not modelled). -/
structure SSEConn where
  session_id : List Char
  message_endpoint : List Char
  pending : List (List Char × List JVal)
  reverseQueue : List JVal

/-- The observable result of `connect_to_sse_endpoint`: the connection (or
`None`) and whether `conn.close()` was called. -/
structure ConnectOutcome where
  conn : Option SSEConn
  closed : Bool

/-- Embedding of `connect_to_sse_endpoint` after the GET is issued:
`status` is the HTTP status of the stream response and `lines` its decoded
lines.  On a non-200 status, or when the bounded scan leaves
`message_endpoint` or `session_id` falsy, the connection is closed and
`None` is returned; otherwise the Streaming-state connection is built. -/
def connect_to_sse_endpoint (status : Nat) (lines : List (List Char)) :
    ConnectOutcome :=
  if status = 200 then
    let s := scanLines initScan 10 lines
    if truthyOpt s.message_endpoint && truthyOpt s.session_id then
      { conn := some
          { session_id := (s.session_id).getD []
            message_endpoint := (s.message_endpoint).getD []
            pending := []
            reverseQueue := [] },
        closed := false }
    else { conn := none, closed := true }
  else { conn := none, closed := true }

/-! Reverse-call dispatch (`_listen_for_reverse_calls` and
`_handle_tool_call`, reverse_bridge.py lines 357-463, and the demo
worker's inline loop, reverse_mcp.py lines 667-695). -/

/-- Decimal rendering of an integer, as Python string formatting does. -/
def intChars (n : Int) : List Char :=
  if n < 0 then '-' :: Nat.toDigits 10 n.natAbs else Nat.toDigits 10 n.toNat

/-- Python `str()` of a decoded JSON value as used inside f-strings;
`render` supplies the library rendering of containers. -/
def pyStrOf (render : JVal → List Char) : JVal → List Char
  | .jnull => pystr "None"
  | .jbool true => pystr "True"
  | .jbool false => pystr "False"
  | .jnum n => intChars n
  | .jstr s => s
  | .jarr xs => render (.jarr xs)
  | .jobj kvs => render (.jobj kvs)

/-- The ToolResult shape `{"content": [{"type": "text", "text": txt}],
"isError": isErr}` built throughout the dispatch code. -/
def mkTextResult (txt : List Char) (isErr : Bool) : JVal :=
  .jobj
    [(pystr "content", .jarr
        [.jobj [(pystr "type", .jstr (pystr "text")),
                (pystr "text", .jstr txt)]]),
     (pystr "isError", .jbool isErr)]

/-- Python `v.get(k, dflt)`: `none` models the `AttributeError` raised
when `v` is not a dictionary. -/
def pyGetD (v : JVal) (k : List Char) (dflt : JVal) : Option JVal :=
  match v with
  | .jobj kvs => some ((dictGet? kvs k).getD dflt)
  | _ => none

/-- The external collaborators `_handle_tool_call` uses, abstracted as
functions: the Blender socket round-trip (`none` models a raised
exception), the screenshot file read (`none` models an unreadable file,
with `fileErrText` the rendered exception), `json.dumps(·, indent=2)`,
Python `str()` on containers, the rendered text of a caught exception,
and the decimal digits of `id(self)`. -/
structure BridgeEnv where
  sendCommand : List Char → JVal → Option JVal
  screenshotB64 : Option (List Char)
  fileErrText : List Char
  dumps : JVal → List Char
  render : JVal → List Char
  excText : List Char
  selfIdChars : List Char

/-- The keys of `tool_mapping` in `_handle_tool_call`
(reverse_bridge.py lines 392-403). -/
def toolMappingKeys : List (List Char) :=
  [pystr "blender_get_scene_info",
   pystr "blender_get_object_info",
   pystr "blender_get_viewport_screenshot",
   pystr "blender_execute_code"]

/-- The body of `_handle_tool_call`'s `try` block (reverse_bridge.py
lines 389-451), with `none` modelling a raised exception: the
`tool_mapping` values are evaluated eagerly (so a malformed `input_data`
raises before the membership test), an unrecognized tool name yields the
synthesized `Unknown tool` error ToolResult, and a recognized one runs the
Blender command and formats its result. -/
def handle_tool_call_core (env : BridgeEnv) (tool input_data : JVal) :
    Option JVal := do
  let p1 ← pyGetD input_data (pystr "params") (.jobj [])
  let a1 ← pyGetD p1 (pystr "arguments") (.jobj [])
  let objName ← pyGetD a1 (pystr "object_name") .jnull
  let maxSize ← pyGetD a1 (pystr "max_size") (.jnum 800)
  let code ← pyGetD a1 (pystr "code") .jnull
  let filepath := pystr "/tmp/blender_screenshot_reverse_"
    ++ env.selfIdChars ++ pystr ".png"
  match tool with
  | .jarr _ => none
  | .jobj _ => none
  | _ =>
    if ¬(toolMappingKeys.any (fun k => tool.eqStr k)) then
      some (mkTextResult
        (pystr "Unknown tool: " ++ pyStrOf env.render tool) true)
    else
      let cmdAndParams : List Char × JVal :=
        if tool.eqStr (pystr "blender_get_scene_info") then
          (pystr "get_scene_info", .jobj [])
        else if tool.eqStr (pystr "blender_get_object_info") then
          (pystr "get_object_info", .jobj [(pystr "name", objName)])
        else if tool.eqStr (pystr "blender_get_viewport_screenshot") then
          (pystr "get_viewport_screenshot",
           .jobj [(pystr "max_size", maxSize),
                  (pystr "filepath", .jstr filepath),
                  (pystr "format", .jstr (pystr "png"))])
        else
          (pystr "execute_code", .jobj [(pystr "code", code)])
      let blender_result ← env.sendCommand cmdAndParams.1 cmdAndParams.2
      if tool.eqStr (pystr "blender_get_viewport_screenshot") then
        match env.screenshotB64 with
        | some image_data =>
          some (.jobj
            [(pystr "content", .jarr
                [.jobj [(pystr "type", .jstr (pystr "image")),
                        (pystr "data", .jstr image_data),
                        (pystr "mimeType", .jstr (pystr "image/png"))]]),
             (pystr "isError", .jbool false)])
        | none =>
          some (mkTextResult
            (pystr "Error reading screenshot: " ++ env.fileErrText) true)
      else
        some (mkTextResult (env.dumps blender_result) false)

/-- `_handle_tool_call` with its `except Exception` handler: a raised
exception is converted into an error ToolResult. -/
def handle_tool_call (env : BridgeEnv) (tool input_data : JVal) : JVal :=
  match handle_tool_call_core env tool input_data with
  | some r => r
  | none => mkTextResult (pystr "Error: " ++ env.excText) true

/-- What one iteration of a dispatch loop does with a dequeued message. -/
inductive DispatchResult where
  | replied (call_id : JVal) (result : JVal)
  | noReply
  | raised

/-- One iteration of `_listen_for_reverse_calls` (reverse_bridge.py lines
361-376) on one dequeued message: a well-shaped reverse envelope is
answered by `send_tool_reply(call_id, _handle_tool_call(tool, input))`;
everything else sends no reply (the loop's `except Exception` swallows the
`AttributeError` raised when the `reverse` value is not a dictionary, so
the loop never raises). -/
def listen_step (env : BridgeEnv) (msg : JVal) : DispatchResult :=
  match msg with
  | .jobj kvs =>
    if dictHas kvs (pystr "reverse") then
      match dictGet? kvs (pystr "reverse") with
      | some (.jobj rkvs) =>
        let tool := (dictGet? rkvs (pystr "tool")).getD .jnull
        let call_id := (dictGet? rkvs (pystr "call_id")).getD .jnull
        let input := (dictGet? rkvs (pystr "input")).getD .jnull
        .replied call_id (handle_tool_call env tool input)
      | _ => .noReply
    else .noReply
  | _ => .noReply

/-- The body of `handle_echo_request` (reverse_mcp.py lines 449-475);
`none` models a raised `AttributeError` on a malformed call payload. -/
def handle_echo_request_core (render : JVal → List Char) (call_data : JVal) :
    Option JVal := do
  let p1 ← pyGetD call_data (pystr "params") (.jobj [])
  let arguments ← pyGetD p1 (pystr "arguments") (.jobj [])
  let message ← pyGetD arguments (pystr "message")
    (.jstr (pystr "(no message provided)"))
  some (mkTextResult (pystr "Echo: " ++ pyStrOf render message) false)

/-- One iteration of the demo worker's dispatch loop (reverse_mcp.py
lines 667-695) on one dequeued message: only the tool name
`demo_tool_python` is answered; any other tool name is logged with
`[WARN] Unknown tool:` and left unanswered; exceptions in the body are not
caught there (only `queue.Empty` is) and so end the worker. -/
def main_worker_step (render : JVal → List Char) (msg : JVal) :
    DispatchResult :=
  match msg with
  | .jobj kvs =>
    if dictHas kvs (pystr "reverse") then
      match dictGet? kvs (pystr "reverse") with
      | some (.jobj rkvs) =>
        let tool := (dictGet? rkvs (pystr "tool")).getD .jnull
        let call_id := (dictGet? rkvs (pystr "call_id")).getD .jnull
        let input := (dictGet? rkvs (pystr "input")).getD .jnull
        if tool.eqStr (pystr "demo_tool_python") then
          match handle_echo_request_core render input with
          | some r => .replied call_id r
          | none => .raised
        else .noReply
      | _ => .raised
    else .noReply
  | _ => .noReply

/-! FIFO behaviour of the Reverse-Call Queue. -/

/-- The sequence of reverse-call payloads the Stream Reader decodes from
`lines`, in decode order, cut short when an uncaught classification
exception ends the reader (whether a payload is enqueued never depends on
the correlation table, so the empty table stands in for it here). -/
def decodedReverse (loads : List Char → Option JVal) :
    List (List Char) → List JVal
  | [] => []
  | l :: ls =>
    let t := pyStrip l
    if pyStartsWith t (pystr "data:") then
      match loads (pyStrip (afterFirst (pystr ":") t)) with
      | none => decodedReverse loads ls
      | some j =>
        match classifyPayload [] j with
        | none => []
        | some (.enqueue p) => p :: decodedReverse loads ls
        | some _ => decodedReverse loads ls
    else decodedReverse loads ls

/-- Repeatedly dequeue the FIFO Reverse-Call Queue (`queue.Queue.get`)
until it is empty, returning the envelopes in dequeue order. -/
def drainAll : List JVal → List JVal
  | [] => []
  | x :: xs => x :: drainAll xs

/-! Dictionary lemmas. -/

/-- The values of the correlation table: each slot is the list of payloads
delivered to its queue. -/
abbrev Slot := List JVal

theorem dictGet?_eq_none_iff (d : List (List Char × Slot))
    (k : List Char) : dictGet? d k = none ↔ ∀ p ∈ d, ¬(p.1 = k) := by
  unfold dictGet?
  rw [Option.map_eq_none', List.find?_eq_none]
  simp only [decide_eq_true_eq]

theorem dictHas_of_get {d : List (List Char × Slot)}
    {k : List Char} (h : dictGet? d k = none) : dictHas d k = false := by
  rw [dictGet?_eq_none_iff] at h
  simp only [dictHas, List.any_eq_false, decide_eq_true_eq]
  exact h

theorem dictPop_register_fresh {table : List (List Char × List JVal)}
    {k : List Char} (h : dictGet? table k = none) :
    dictPop (register table k) k = table := by
  have hall := (dictGet?_eq_none_iff table k).mp h
  have hhas := dictHas_of_get h
  simp only [register, dictSet, hhas, if_neg, Bool.false_eq_true,
    if_false, dictPop, List.filter_append]
  rw [List.filter_eq_self.mpr, List.filter_cons_of_neg]
  · simp
  · simp
  · intro p hp
    simpa using hall p hp

theorem dictGet?_dictPop_self (d : List (List Char × Slot))
    (k : List Char) : dictGet? (dictPop d k) k = none := by
  rw [dictGet?_eq_none_iff]
  intro p hp
  simp only [dictPop, List.mem_filter, decide_not, Bool.not_eq_eq_eq_not,
    Bool.not_true, decide_eq_false_iff_not] at hp
  exact hp.2

theorem find?_replace (d : List (List Char × Slot)) (k : List Char)
    (v : Slot) (h : dictHas d k = true) :
    (d.map (fun p => if p.1 = k then (k, v) else p)).find?
      (fun p => p.1 = k) = some (k, v) := by
  induction d with
  | nil => simp [dictHas] at h
  | cons p d ih =>
    by_cases hp : p.1 = k
    · simp [hp]
    · have hd : dictHas d k = true := by
        simpa [dictHas, hp] using h
      simpa [hp] using ih hd

theorem find?_replace_other (d : List (List Char × Slot))
    (k k2 : List Char) (v : Slot) (h : ¬(k2 = k)) :
    (d.map (fun p => if p.1 = k then (k, v) else p)).find?
      (fun p => p.1 = k2) = d.find? (fun p => p.1 = k2) := by
  induction d with
  | nil => simp
  | cons p d ih =>
    by_cases hp : p.1 = k
    · have hhead : decide (((k, v) : List Char × Slot).1 = k2) = false :=
        decide_eq_false (fun hh => h hh.symm)
      have hp2 : decide (p.1 = k2) = false :=
        decide_eq_false (fun hh => h (hh ▸ hp))
      rw [List.map_cons, if_pos hp]
      simp only [List.find?, hhead, hp2, ih]
    · rw [List.map_cons, if_neg hp]
      by_cases hq : p.1 = k2
      · have hq2 : decide (p.1 = k2) = true := decide_eq_true hq
        simp only [List.find?, hq2]
      · have hq2 : decide (p.1 = k2) = false := decide_eq_false hq
        simp only [List.find?, hq2, ih]

theorem dictGet?_dictSet_self (d : List (List Char × Slot))
    (k : List Char) (v : Slot) : dictGet? (dictSet d k v) k = some v := by
  cases hh : dictHas d k with
  | true =>
    simp only [dictSet, hh, if_true, dictGet?, find?_replace d k v hh,
      Option.map_some']
  | false =>
    have hfind : d.find? (fun p => decide (p.1 = k)) = none := by
      rw [List.find?_eq_none]
      intro p hp
      simp only [dictHas, List.any_eq_false, decide_eq_true_eq] at hh
      simp only [decide_eq_true_eq]
      exact hh p hp
    have hpos : List.find? (fun p => decide (p.1 = k))
        [((k, v) : List Char × Slot)] = some (k, v) :=
      List.find?_cons_of_pos _ (by simp)
    simp only [dictSet, hh, Bool.false_eq_true, if_false, dictGet?,
      List.find?_append, hfind, hpos]
    rfl

theorem dictGet?_dictSet_other (d : List (List Char × Slot))
    (k k2 : List Char) (v : Slot) (h : ¬(k2 = k)) :
    dictGet? (dictSet d k v) k2 = dictGet? d k2 := by
  cases hh : dictHas d k with
  | true =>
    simp only [dictSet, hh, if_true, dictGet?,
      find?_replace_other d k k2 v h]
  | false =>
    have hsingle :
        List.find? (fun p => decide (p.1 = k2))
          [((k, v) : List Char × Slot)] = none := by
      have hne : decide (((k, v) : List Char × Slot).1 = k2) = false :=
        decide_eq_false (fun hx => h hx.symm)
      simp only [List.find?, hne]
    simp only [dictSet, hh, Bool.false_eq_true, if_false, dictGet?,
      List.find?_append, hsingle, Option.or_none]

/-! Claims C2, C3, C4, C8. -/

/-- C2: a `send_jsonrpc_request` whose POST was accepted (202) but whose
result slot receives nothing within the timeout exits through the
`queue.Empty` path, and the `finally` block removes the entry for the
generated request id, so the correlation table returns exactly to its
pre-call value (in particular to its pre-call size) and holds no entry for
that id. -/
theorem call_timeout_cleanup (table : List (List Char × List JVal))
    (request_id method : List Char) (params : JVal)
    (hfresh : dictGet? table request_id = none) :
    (send_jsonrpc_request table request_id method params
        (some 202) none).outcome = .timedOut ∧
    (send_jsonrpc_request table request_id method params
        (some 202) none).table = table ∧
    dictGet? (send_jsonrpc_request table request_id method params
        (some 202) none).table request_id = none := by
  refine ⟨rfl, ?_, ?_⟩
  · simpa [send_jsonrpc_request] using dictPop_register_fresh hfresh
  · simpa [send_jsonrpc_request]
      using dictGet?_dictPop_self (register table request_id) request_id

/-- Witness for C2 at a concrete fresh table. -/
theorem call_timeout_cleanup_witness :
    (send_jsonrpc_request [] (pystr "r1") (pystr "tools/list") (.jobj [])
        (some 202) none).outcome = .timedOut ∧
    (send_jsonrpc_request [] (pystr "r1") (pystr "tools/list") (.jobj [])
        (some 202) none).table = [] ∧
    dictGet? (send_jsonrpc_request [] (pystr "r1") (pystr "tools/list")
        (.jobj []) (some 202) none).table (pystr "r1") = none :=
  call_timeout_cleanup [] (pystr "r1") (pystr "tools/list") (.jobj []) rfl

/-- C3: a `send_jsonrpc_request` whose POST raises or returns any status
other than 202 exits through the transport-failure path without blocking
on the result slot (whatever the stream would have delivered), and the
`finally` block leaves no correlation-table entry for the generated
request id. -/
theorem call_transport_error (table : List (List Char × List JVal))
    (request_id method : List Char) (params : JVal)
    (status : Option Nat) (delivered : Option JVal)
    (hstatus : ¬(status = some 202)) :
    (send_jsonrpc_request table request_id method params
        status delivered).outcome = .transportError ∧
    (send_jsonrpc_request table request_id method params
        status delivered).waited = false ∧
    dictGet? (send_jsonrpc_request table request_id method params
        status delivered).table request_id = none := by
  unfold send_jsonrpc_request
  rw [if_neg hstatus]
  exact ⟨rfl, rfl,
    dictGet?_dictPop_self (register table request_id) request_id⟩

/-- Witness for C3: an HTTP 500 POST response, with a reply available on
the stream, still exits through the transport path without waiting. -/
theorem call_transport_error_witness :
    (send_jsonrpc_request [] (pystr "r2") (pystr "tools/list") (.jobj [])
        (some 500) (some .jnull)).outcome = .transportError ∧
    (send_jsonrpc_request [] (pystr "r2") (pystr "tools/list") (.jobj [])
        (some 500) (some .jnull)).waited = false ∧
    dictGet? (send_jsonrpc_request [] (pystr "r2") (pystr "tools/list")
        (.jobj []) (some 500) (some .jnull)).table (pystr "r2") = none :=
  call_transport_error [] (pystr "r2") (pystr "tools/list") (.jobj [])
    (some 500) (some .jnull) (by decide)

/-- C4: `send_tool_reply` serializes exactly the envelope
`{jsonrpc: "2.0", id: call_id, method: "tools/reply",
params: {result: result}}` with the peer-supplied call id echoed
unchanged, touches no correlation-table entry, and never waits on a
result slot. -/
theorem tool_reply_fire_and_forget (table : List (List Char × List JVal))
    (call_id result : JVal) (status : Option Nat) :
    (send_tool_reply table call_id result status).body = .jobj
      [(pystr "jsonrpc", .jstr (pystr "2.0")),
       (pystr "id", call_id),
       (pystr "method", .jstr (pystr "tools/reply")),
       (pystr "params", .jobj [(pystr "result", result)])] ∧
    (send_tool_reply table call_id result status).table = table ∧
    (send_tool_reply table call_id result status).waited = false :=
  ⟨rfl, rfl, rfl⟩

/-- C8 counterexample: registering an id that is already present does not
fail — `pending_responses[request_id] = response_queue` silently replaces
the existing slot (here one that already holds a delivered payload) with a
fresh empty one. -/
theorem register_duplicate_counterexample :
    dictGet? [(pystr "a", [JVal.jnull])] (pystr "a") = some [JVal.jnull] ∧
    register [(pystr "a", [JVal.jnull])] (pystr "a") =
      [(pystr "a", [])] :=
  ⟨rfl, rfl⟩

/-- C8 as amended: `register` unconditionally installs a fresh empty slot
for the id — silently replacing any existing entry rather than failing
with DuplicateId — and leaves every other id's entry unchanged; for ids
not present it creates and inserts the new empty slot. -/
theorem register_installs_empty_slot (table : List (List Char × List JVal))
    (k : List Char) :
    dictGet? (register table k) k = some [] ∧
    ∀ k2, ¬(k2 = k) →
      dictGet? (register table k) k2 = dictGet? table k2 :=
  ⟨dictGet?_dictSet_self table k [],
   fun k2 h => dictGet?_dictSet_other table k k2 [] h⟩

/-- Witness for the amended C8 on a table already holding the id. -/
theorem register_installs_empty_slot_witness :
    dictGet? (register [(pystr "a", [JVal.jnull])] (pystr "a"))
      (pystr "a") = some [] ∧
    dictGet? (register [(pystr "a", [JVal.jnull])] (pystr "a"))
      (pystr "b") = dictGet? [(pystr "a", [JVal.jnull])] (pystr "b") :=
  ⟨(register_installs_empty_slot [(pystr "a", [JVal.jnull])]
      (pystr "a")).1,
   (register_installs_empty_slot [(pystr "a", [JVal.jnull])]
      (pystr "a")).2 (pystr "b") (by decide)⟩

/-! Claims C1 and C6: frame classification. -/

/-- The spec's notion of a payload "containing a field": key membership in
a JSON object (only objects have fields). -/
def hasField (j : JVal) (k : List Char) : Bool :=
  match j with
  | .jobj kvs => dictHas kvs k
  | _ => false

/-- Whether a JSON value is hashable in Python (arrays decode to lists and
objects to dictionaries, both unhashable). -/
def jHashable : JVal → Bool
  | .jarr _ => false
  | .jobj _ => false
  | _ => true

/-- The decoded payloads on which the reader's classification cannot
raise: objects (unless routed through an unhashable `id` value), and
arrays/strings whose Python membership test sends them to the reverse
queue or to the silent-discard branch without reaching a subscript. -/
def jSafePayload : JVal → Bool
  | .jobj kvs =>
    dictHas kvs (pystr "reverse") ||
    (match dictGet? kvs (pystr "id") with
     | some (.jarr _) => false
     | some (.jobj _) => false
     | _ => true)
  | .jarr xs =>
    xs.any (fun x => x.eqStr (pystr "reverse")) ||
    !(xs.any (fun x => x.eqStr (pystr "id")))
  | .jstr s =>
    pyContainsSub (pystr "reverse") s ||
    !(pyContainsSub (pystr "id") s)
  | _ => false

theorem dictHasJ_of_get_some {kvs : List (List Char × JVal)}
    {k : List Char} {v : JVal} (h : dictGet? kvs k = some v) :
    dictHas kvs k = true := by
  unfold dictGet? at h
  obtain ⟨p, hp, -⟩ := Option.map_eq_some'.mp h
  have hmem := List.mem_of_find?_eq_some hp
  have hpred := List.find?_some hp
  simp only [dictHas, List.any_eq_true]
  exact ⟨p, hmem, hpred⟩

theorem dictHasJ_of_get_none {kvs : List (List Char × JVal)}
    {k : List Char} (h : dictGet? kvs k = none) :
    dictHas kvs k = false := by
  unfold dictGet? at h
  rw [Option.map_eq_none', List.find?_eq_none] at h
  simp only [dictHas, List.any_eq_false]
  exact h

theorem get_some_of_dictHasJ {kvs : List (List Char × JVal)}
    {k : List Char} (h : dictHas kvs k = true) :
    ∃ v, dictGet? kvs k = some v := by
  cases hg : dictGet? kvs k with
  | some v => exact ⟨v, rfl⟩
  | none => rw [dictHasJ_of_get_none hg] at h; cases h

/-- C1 counterexample: the decoded payload `"xreversex"` (a JSON string)
contains neither a "reverse" field nor an "id" field, yet the reader
enqueues it on the Reverse-Call Queue instead of dropping it, because
Python's `'reverse' in json_data` is substring containment on strings. -/
theorem classify_substring_counterexample :
    hasField (JVal.jstr (pystr "xreversex")) (pystr "reverse") = false ∧
    hasField (JVal.jstr (pystr "xreversex")) (pystr "id") = false ∧
    classifyPayload [] (JVal.jstr (pystr "xreversex")) =
      some (.enqueue (JVal.jstr (pystr "xreversex"))) :=
  ⟨rfl, rfl, rfl⟩

/-- C1 as amended: for every decoded payload that is a JSON object, the
classification is as specified — a "reverse" key routes it to the
Reverse-Call Queue even when an "id" key is also present; otherwise a
hashable "id" value routes it to the Correlation Table (delivered to the
matching slot when the id is a registered string key, silently dropped
otherwise); an object with neither key is dropped.  (Non-object payloads
follow Python's membership semantics instead: a string or array
"containing" the word `reverse` is enqueued, and some raise.) -/
theorem classify_object_payload (pending : List (List Char × List JVal))
    (kvs : List (List Char × JVal)) :
    (dictHas kvs (pystr "reverse") = true →
      classifyPayload pending (.jobj kvs) =
        some (.enqueue (.jobj kvs))) ∧
    (dictHas kvs (pystr "reverse") = false →
      ∀ s, dictGet? kvs (pystr "id") = some (.jstr s) →
        classifyPayload pending (.jobj kvs) =
          some (if dictHas pending s then .deliver s (.jobj kvs)
                else .discard)) ∧
    (dictHas kvs (pystr "reverse") = false →
      ∀ idv, dictGet? kvs (pystr "id") = some idv →
        jHashable idv = true → (∀ s, ¬(idv = .jstr s)) →
        classifyPayload pending (.jobj kvs) = some .discard) ∧
    (dictHas kvs (pystr "reverse") = false →
      dictGet? kvs (pystr "id") = none →
      classifyPayload pending (.jobj kvs) = some .discard) := by
  refine ⟨?_, ?_, ?_, ?_⟩
  · intro hr
    simp only [classifyPayload, pyContainsJ, hr]
  · intro hr s hid
    have hhas := dictHasJ_of_get_some hid
    simp only [classifyPayload, pyContainsJ, hr, hhas, pySubscriptJ, hid]
    cases hps : dictHas pending s <;> simp [hps]
  · intro hr idv hid hhash hnostr
    have hhas := dictHasJ_of_get_some hid
    simp only [classifyPayload, pyContainsJ, hr, hhas, pySubscriptJ, hid]
    cases idv with
    | jnull => rfl
    | jbool b => rfl
    | jnum n => rfl
    | jstr s => exact absurd rfl (hnostr s)
    | jarr xs => cases hhash
    | jobj o => cases hhash
  · intro hr hid
    have hhas := dictHasJ_of_get_none hid
    simp only [classifyPayload, pyContainsJ, hr, hhas]

/-- Witness for the amended C1, one concrete payload per branch. -/
theorem classify_object_payload_witness :
    classifyPayload []
      (.jobj [(pystr "reverse", .jnull), (pystr "id", .jstr (pystr "x"))]) =
      some (.enqueue
        (.jobj [(pystr "reverse", .jnull),
                (pystr "id", .jstr (pystr "x"))])) ∧
    classifyPayload [(pystr "x", [])]
      (.jobj [(pystr "id", .jstr (pystr "x"))]) =
      some (if dictHas [(pystr "x", ([] : List JVal))] (pystr "x")
            then .deliver (pystr "x") (.jobj [(pystr "id", .jstr (pystr "x"))])
            else .discard) ∧
    classifyPayload [] (.jobj [(pystr "id", .jnum 7)]) = some .discard ∧
    classifyPayload [] (.jobj [(pystr "k", .jnull)]) = some .discard :=
  ⟨(classify_object_payload []
      [(pystr "reverse", .jnull), (pystr "id", .jstr (pystr "x"))]).1 rfl,
   (classify_object_payload [(pystr "x", [])]
      [(pystr "id", .jstr (pystr "x"))]).2.1 rfl (pystr "x") rfl,
   (classify_object_payload [] [(pystr "id", .jnum 7)]).2.2.1 rfl
      (.jnum 7) rfl rfl (fun _ h => JVal.noConfusion h),
   (classify_object_payload [] [(pystr "k", .jnull)]).2.2.2 rfl rfl⟩

/-- Classification is total on safe payloads: exactly one action comes
out of the reader's branch structure. -/
theorem classify_safe_total (pending : List (List Char × List JVal))
    (j : JVal) (h : jSafePayload j = true) :
    ∃ a, classifyPayload pending j = some a := by
  cases j with
  | jnull => cases h
  | jbool b => cases h
  | jnum n => cases h
  | jstr s =>
    simp only [jSafePayload, Bool.or_eq_true, Bool.not_eq_true'] at h
    cases hr : pyContainsSub (pystr "reverse") s with
    | true =>
      exact ⟨.enqueue (.jstr s), by simp [classifyPayload, pyContainsJ, hr]⟩
    | false =>
      have hid : pyContainsSub (pystr "id") s = false := by
        rcases h with h | h
        · rw [hr] at h; cases h
        · exact h
      exact ⟨.discard, by simp [classifyPayload, pyContainsJ, hr, hid]⟩
  | jarr xs =>
    simp only [jSafePayload, Bool.or_eq_true, Bool.not_eq_true'] at h
    cases hr : xs.any (fun x => x.eqStr (pystr "reverse")) with
    | true =>
      exact ⟨.enqueue (.jarr xs), by simp [classifyPayload, pyContainsJ, hr]⟩
    | false =>
      have hid : xs.any (fun x => x.eqStr (pystr "id")) = false := by
        rcases h with h | h
        · rw [hr] at h; cases h
        · exact h
      exact ⟨.discard, by simp [classifyPayload, pyContainsJ, hr, hid]⟩
  | jobj kvs =>
    simp only [jSafePayload, Bool.or_eq_true] at h
    cases hr : dictHas kvs (pystr "reverse") with
    | true =>
      exact ⟨.enqueue (.jobj kvs), by simp [classifyPayload, pyContainsJ, hr]⟩
    | false =>
      rcases h with h | h
      · rw [hr] at h; cases h
      · cases hid : dictHas kvs (pystr "id") with
        | false =>
          exact ⟨.discard, by simp [classifyPayload, pyContainsJ, hr, hid]⟩
        | true =>
          obtain ⟨v, hv⟩ := get_some_of_dictHasJ hid
          rw [hv] at h
          cases v with
          | jnull =>
            exact ⟨.discard, by
              simp [classifyPayload, pyContainsJ, pySubscriptJ, hr, hid, hv]⟩
          | jbool b =>
            exact ⟨.discard, by
              simp [classifyPayload, pyContainsJ, pySubscriptJ, hr, hid, hv]⟩
          | jnum n =>
            exact ⟨.discard, by
              simp [classifyPayload, pyContainsJ, pySubscriptJ, hr, hid, hv]⟩
          | jstr s =>
            cases hps : dictHas pending s with
            | true =>
              exact ⟨.deliver s (.jobj kvs), by
                simp [classifyPayload, pyContainsJ, pySubscriptJ,
                  hr, hid, hv, hps]⟩
            | false =>
              exact ⟨.discard, by
                simp [classifyPayload, pyContainsJ, pySubscriptJ,
                  hr, hid, hv, hps]⟩
          | jarr ys => cases h
          | jobj o => cases h

/-- If a stripped line starts with `data:` it cannot start with `:`. -/
theorem data_not_keepalive {t : List Char}
    (h : pyStartsWith t (pystr "data:") = true) :
    pyStartsWith t (pystr ":") = false := by
  cases t with
  | nil => cases h
  | cons c cs =>
    have hc : c = 'd' := by
      by_cases hcd : c = 'd'
      · exact hcd
      · rw [show pystr "data:" = 'd' :: pystr "ata:" from rfl] at h
        unfold pyStartsWith at h
        rw [if_neg hcd] at h
        cases h
    subst hc
    rw [show pystr ":" = [':'] from rfl]
    unfold pyStartsWith
    rw [if_neg (by decide)]

/-- C6 as amended: the reader's per-frame handling never ends the loop on
a keep-alive or other non-data line, nor on a malformed (non-JSON) data
payload — those are silently discarded — and on every data payload that
decodes to a safe value (a JSON object without an unhashable id detour, or
an array/string that Python's membership test routes without
subscripting) exactly one classification action occurs and is applied.
(Payloads decoding to numbers, booleans or `null` — and the unsafe
object/array/string shapes — instead raise an uncaught `TypeError` that
terminates the reader loop, as the counterexample shows.) -/
theorem reader_step_totality :
    (∀ (loads : List Char → Option JVal) (st : ReaderState)
        (line : List Char),
        pyStartsWith (pyStrip line) (pystr "data:") = false →
        sse_reader_step loads st line = some st) ∧
    (∀ (loads : List Char → Option JVal) (st : ReaderState)
        (line : List Char),
        pyStartsWith (pyStrip line) (pystr "data:") = true →
        loads (pyStrip (afterFirst (pystr ":") (pyStrip line))) = none →
        sse_reader_step loads st line = some st) ∧
    (∀ (loads : List Char → Option JVal) (st : ReaderState)
        (line : List Char) (j : JVal),
        pyStartsWith (pyStrip line) (pystr "data:") = true →
        loads (pyStrip (afterFirst (pystr ":") (pyStrip line))) = some j →
        jSafePayload j = true →
        ∃ a, classifyPayload st.pending j = some a ∧
          sse_reader_step loads st line = some (applyAction st a)) := by
  refine ⟨?_, ?_, ?_⟩
  · intro loads st line h
    unfold sse_reader_step
    cases hk : pyStartsWith (pyStrip line) (pystr ":") with
    | true => simp [hk]
    | false => simp [hk, h]
  · intro loads st line h hload
    simp [sse_reader_step, data_not_keepalive h, h, hload]
  · intro loads st line j h hload hsafe
    obtain ⟨a, ha⟩ := classify_safe_total st.pending j hsafe
    refine ⟨a, ha, ?_⟩
    simp [sse_reader_step, data_not_keepalive h, h, hload, ha]

/-- A fragment of `json.loads`, correct on the inputs used in the
theorems below: the decimal literal `5` decodes to the number 5, and the
object literal decodes to a one-key object; nothing else decodes. -/
def loadsDemo : List Char → Option JVal := fun s =>
  if s = pystr "5" then some (.jnum 5)
  else if s = pystr "\x7b\"reverse\": 1\x7d" then
    some (.jobj [(pystr "reverse", .jnum 1)])
  else none

/-- C6 counterexample: the line `data: 5` carries a well-formed JSON
payload, yet its handling is none of {fulfill, enqueue, discard}: the
membership test `'reverse' in 5` raises a `TypeError` that is not caught
by the `except json.JSONDecodeError` handler, so the reader loop
terminates, and a reverse-call event later on the same stream is lost
(processed fine when the bad event is absent). -/
theorem reader_crash_counterexample :
    sse_reader_step loadsDemo ⟨[], []⟩ (pystr "data: 5") = none ∧
    sse_reader_run loadsDemo ⟨[], []⟩
      [pystr "data: 5", pystr "data: \x7b\"reverse\": 1\x7d"] =
      (⟨[], []⟩, true) ∧
    sse_reader_run loadsDemo ⟨[], []⟩
      [pystr "data: \x7b\"reverse\": 1\x7d"] =
      (⟨[], [.jobj [(pystr "reverse", .jnum 1)]]⟩, false) :=
  ⟨rfl, rfl, rfl⟩

/-- Witness for the amended C6: a keep-alive line, a malformed data line,
and a safe reverse-call payload, each handled without ending the loop. -/
theorem reader_step_totality_witness :
    sse_reader_step loadsDemo ⟨[], []⟩ (pystr ": ping") = some ⟨[], []⟩ ∧
    sse_reader_step loadsDemo ⟨[], []⟩ (pystr "data: oops") =
      some ⟨[], []⟩ ∧
    (∃ a, classifyPayload [] (.jobj [(pystr "reverse", .jnum 1)]) =
        some a ∧
      sse_reader_step loadsDemo ⟨[], []⟩
        (pystr "data: \x7b\"reverse\": 1\x7d") =
        some (applyAction ⟨[], []⟩ a)) :=
  ⟨reader_step_totality.1 loadsDemo ⟨[], []⟩ (pystr ": ping") (by decide),
   reader_step_totality.2.1 loadsDemo ⟨[], []⟩ (pystr "data: oops")
     (by decide) rfl,
   reader_step_totality.2.2 loadsDemo ⟨[], []⟩
     (pystr "data: \x7b\"reverse\": 1\x7d")
     (.jobj [(pystr "reverse", .jnum 1)]) (by decide) rfl rfl⟩

/-! Claims C9 and C10: the handshake. -/

/-- C9: when the bounded ten-line scan of the stream's initial lines
yields no "endpoint" event, the handshake fails: the connect function
returns no connection, and the underlying stream connection is closed.  -/
theorem handshake_no_endpoint_fails (lines : List (List Char))
    (h : (scanLines initScan 10 lines).message_endpoint = none) :
    connect_to_sse_endpoint 200 lines = { conn := none, closed := true } := by
  simp [connect_to_sse_endpoint, h, truthyOpt]

/-- Witness for C9: a stream whose first lines never carry an endpoint
data field. -/
theorem handshake_no_endpoint_fails_witness :
    connect_to_sse_endpoint 200
      [pystr ": welcome", pystr "event: endpoint"] =
      { conn := none, closed := true } :=
  handshake_no_endpoint_fails
    [pystr ": welcome", pystr "event: endpoint"] (by decide)

theorem scanLines_succ (s0 : ScanState) (fuel : Nat)
    (lines : List (List Char)) :
    scanLines s0 (fuel + 1) lines =
      (if (scanStep s0 (lines.headD [])).2 then (scanStep s0 (lines.headD [])).1
       else scanLines (scanStep s0 (lines.headD [])).1 fuel lines.tail) := rfl

theorem scanStep_event {s : ScanState} {l : List Char}
    (h1 : pyStartsWith (pyStrip l) (pystr "event:") = true) :
    scanStep s l =
      ({ s with event_type := some (pyStrip (afterFirst (pystr ":") (pyStrip l))) }, false) := by
  simp [scanStep, h1]

theorem scanStep_data_endpoint {s : ScanState} {l : List Char}
    (h1 : pyStartsWith (pyStrip l) (pystr "event:") = false)
    (h2 : pyStartsWith (pyStrip l) (pystr "data:") = true)
    (h3 : s.event_type = some (pystr "endpoint")) :
    scanStep s l =
      ({ s with
          message_endpoint := some (pyStrip (afterFirst (pystr ":") (pyStrip l))),
          session_id := (if pyContainsSub (pystr "session_id=") (pyStrip (afterFirst (pystr ":") (pyStrip l))) = true
            then some (pySessionExtract (pyStrip (afterFirst (pystr ":") (pyStrip l))))
            else s.session_id) }, true) := by
  simp [scanStep, h1, h2, h3]

theorem scanStep_data_other {s : ScanState} {l : List Char}
    (h1 : pyStartsWith (pyStrip l) (pystr "event:") = false)
    (h2 : pyStartsWith (pyStrip l) (pystr "data:") = true)
    (h3 : ¬(s.event_type = some (pystr "endpoint"))) :
    scanStep s l = (s, false) := by
  simp [scanStep, h1, h2, h3]

theorem scanStep_blank {s : ScanState} {l : List Char}
    (h5 : pyStrip l = []) :
    scanStep s l = (s, truthyOpt s.message_endpoint) := by
  have he : pyStartsWith ([] : List Char) (pystr "event:") = false := rfl
  have hd : pyStartsWith ([] : List Char) (pystr "data:") = false := rfl
  simp [scanStep, h5, he, hd]

theorem scanStep_other {s : ScanState} {l : List Char}
    (h1 : pyStartsWith (pyStrip l) (pystr "event:") = false)
    (h2 : pyStartsWith (pyStrip l) (pystr "data:") = false)
    (h5 : ¬(pyStrip l = [])) :
    scanStep s l = (s, false) := by
  simp [scanStep, h1, h2, h5]

/-- Once `message_endpoint` is truthy the scan loop breaks on the next
blank line, and it is only ever set in the branch that also derives
`session_id` from the same data string; so the scan ends with either both
fields untouched or both set together. -/
theorem scan_invariant (fuel : Nat) :
    ∀ (s0 : ScanState) (lines : List (List Char)),
    s0.message_endpoint = none → s0.session_id = none →
    ((scanLines s0 fuel lines).message_endpoint = none ∧
      (scanLines s0 fuel lines).session_id = none) ∨
    (∃ me, (scanLines s0 fuel lines).message_endpoint = some me ∧
      (scanLines s0 fuel lines).session_id =
        (if pyContainsSub (pystr "session_id=") me = true
         then some (pySessionExtract me) else none)) := by
  induction fuel with
  | zero =>
    intro s0 lines hme hsid
    exact Or.inl ⟨hme, hsid⟩
  | succ fuel ih =>
    intro s0 lines hme hsid
    rw [scanLines_succ]
    by_cases h1 : pyStartsWith (pyStrip (lines.headD [])) (pystr "event:") = true
    · rw [scanStep_event h1]
      exact ih _ _ hme hsid
    · rw [Bool.not_eq_true] at h1
      by_cases h2 : pyStartsWith (pyStrip (lines.headD [])) (pystr "data:") = true
      · by_cases h3 : s0.event_type = some (pystr "endpoint")
        · rw [scanStep_data_endpoint h1 h2 h3]
          simp only [if_true]
          refine Or.inr ⟨pyStrip (afterFirst (pystr ":") (pyStrip (lines.headD []))), rfl, ?_⟩
          by_cases h4 : pyContainsSub (pystr "session_id=") (pyStrip (afterFirst (pystr ":") (pyStrip (lines.headD [])))) = true
          · rw [if_pos h4, if_pos h4]
          · rw [if_neg h4, if_neg h4, hsid]
        · rw [scanStep_data_other h1 h2 h3]
          exact ih _ _ hme hsid
      · rw [Bool.not_eq_true] at h2
        by_cases h5 : pyStrip (lines.headD []) = []
        · rw [scanStep_blank h5, hme]
          exact ih _ _ hme hsid
        · rw [scanStep_other h1 h2 h5]
          exact ih _ _ hme hsid

/-- C10 as amended: the handshake succeeds only if the endpoint event's
data string contains `session_id=`, and an endpoint data string without it
makes connect fail even though a ReplyPath was received; when the
handshake succeeds, the session identifier is `pySessionExtract` of the
ReplyPath — the segment after the first `session_id=` truncated at the
next occurrence of `session_id=` or `&`, whichever comes first (not
always the full substring up to the next `&`). -/
theorem session_id_extraction (status : Nat) (lines : List (List Char)) :
    (∀ c, (connect_to_sse_endpoint status lines).conn = some c →
      pyContainsSub (pystr "session_id=") c.message_endpoint = true ∧
      c.session_id = pySessionExtract c.message_endpoint) ∧
    (∀ me, (scanLines initScan 10 lines).message_endpoint = some me →
      pyContainsSub (pystr "session_id=") me = false →
      connect_to_sse_endpoint status lines =
        { conn := none, closed := true }) := by
  by_cases hs : status = 200
  · subst hs
    rcases scan_invariant 10 initScan lines rfl rfl with
      ⟨hme, hsid⟩ | ⟨me, hme, hsid⟩
    · constructor
      · intro c hc
        simp [connect_to_sse_endpoint, hme, truthyOpt] at hc
      · intro me hme2 _
        rw [hme] at hme2
        cases hme2
    · constructor
      · intro c hc
        by_cases h4 : pyContainsSub (pystr "session_id=") me = true
        · rw [h4, if_pos rfl] at hsid
          have hconn : connect_to_sse_endpoint 200 lines =
              (if (decide ¬(me = []) && decide ¬(pySessionExtract me = [])) = true then
                { conn := some { session_id := pySessionExtract me, message_endpoint := me, pending := [], reverseQueue := [] }, closed := false }
              else { conn := none, closed := true }) := by
            simp [connect_to_sse_endpoint, hme, hsid, truthyOpt]
          rw [hconn] at hc
          cases hb : (decide ¬(me = []) && decide ¬(pySessionExtract me = [])) with
          | false =>
            rw [hb] at hc
            cases hc
          | true =>
            rw [hb] at hc
            simp only [if_true] at hc
            have hcrec := Option.some.inj hc
            rw [← hcrec]
            exact ⟨h4, rfl⟩
        · rw [Bool.not_eq_true] at h4
          rw [h4] at hsid
          simp only [Bool.false_eq_true, if_false] at hsid
          simp [connect_to_sse_endpoint, hme, hsid, truthyOpt] at hc
      · intro me2 hme2 h4
        rw [hme] at hme2
        have hmeeq := Option.some.inj hme2
        rw [← hmeeq] at h4
        rw [h4] at hsid
        simp only [Bool.false_eq_true, if_false] at hsid
        simp [connect_to_sse_endpoint, hme, hsid, truthyOpt]
  · constructor
    · intro c hc
      simp [connect_to_sse_endpoint, hs] at hc
    · intro me _ _
      simp [connect_to_sse_endpoint, hs]

/-- C10 counterexample: when `session_id=` occurs again before the next
`&`, the extracted identifier is the segment up to that second
`session_id=` (Python's `split('session_id=')[1]`), not the substring
between `session_id=` and the next `&` as the claim states. -/
theorem session_id_extraction_counterexample :
    ((connect_to_sse_endpoint 200
        [pystr "event: endpoint",
         pystr "data: /m?session_id=absession_id=cd&x"]).conn.map
      (fun c => c.session_id)) = some (pystr "ab") ∧
    specSessionOf (pystr "/m?session_id=absession_id=cd&x") =
      pystr "absession_id=cd" ∧
    ¬(pystr "ab" = pystr "absession_id=cd") :=
  ⟨rfl, rfl, by decide⟩

/-- Witness for the amended C10: a successful handshake and a rejected
endpoint without `session_id=`. -/
theorem session_id_extraction_witness :
    (pyContainsSub (pystr "session_id=")
        (pystr "/messages/?session_id=xyz&k=v") = true ∧
      pystr "xyz" =
        pySessionExtract (pystr "/messages/?session_id=xyz&k=v")) ∧
    connect_to_sse_endpoint 200
      [pystr "event: endpoint", pystr "data: /nope"] =
      { conn := none, closed := true } :=
  ⟨(session_id_extraction 200
      [pystr "event: endpoint",
       pystr "data: /messages/?session_id=xyz&k=v"]).1
      { session_id := pystr "xyz"
        message_endpoint := pystr "/messages/?session_id=xyz&k=v"
        pending := []
        reverseQueue := [] } rfl,
   (session_id_extraction 200
      [pystr "event: endpoint", pystr "data: /nope"]).2
      (pystr "/nope") rfl rfl⟩

/-! Claim C5: reverse calls naming an unregistered tool. -/

/-- The wire shape of an inbound reverse-call envelope (spec §6):
`{"reverse": {"tool": ..., "call_id": ..., "input": ...}}`. -/
def reverseEnvelope (tool call_id input : JVal) : JVal :=
  .jobj [(pystr "reverse", .jobj
    [(pystr "tool", tool), (pystr "call_id", call_id),
     (pystr "input", input)])]

/-- The `isError` member of a ToolResult payload. -/
def isErrorOf (r : JVal) : Option JVal :=
  match r with
  | .jobj kvs => dictGet? kvs (pystr "isError")
  | _ => none

/-- On a tool name outside `tool_mapping`, the body of `_handle_tool_call`
either raises while eagerly evaluating the mapping's parameter expressions
(malformed `input_data`) or returns the synthesized `Unknown tool` error
ToolResult. -/
theorem core_unknown (env : BridgeEnv) (t : List Char) (inp : JVal)
    (hunknown : toolMappingKeys.any (fun k => decide (t = k)) = false) :
    handle_tool_call_core env (.jstr t) inp = none ∨
    handle_tool_call_core env (.jstr t) inp =
      some (mkTextResult (pystr "Unknown tool: " ++ t) true) := by
  unfold handle_tool_call_core
  cases h1 : pyGetD inp (pystr "params") (.jobj []) with
  | none => exact Or.inl (by simp [h1])
  | some p1 =>
    cases h2 : pyGetD p1 (pystr "arguments") (.jobj []) with
    | none => exact Or.inl (by simp [h1, h2])
    | some a1 =>
      cases h3 : pyGetD a1 (pystr "object_name") .jnull with
      | none => exact Or.inl (by simp [h1, h2, h3])
      | some objName =>
        cases h4 : pyGetD a1 (pystr "max_size") (.jnum 800) with
        | none => exact Or.inl (by simp [h1, h2, h3, h4])
        | some maxSize =>
          cases h5 : pyGetD a1 (pystr "code") .jnull with
          | none => exact Or.inl (by simp [h1, h2, h3, h4, h5])
          | some code =>
            refine Or.inr ?_
            simp [h1, h2, h3, h4, h5, JVal.eqStr, hunknown, pyStrOf]

/-- C5 as amended: the bridge's dispatch loop answers a well-shaped
reverse-call envelope whose tool name has no `tool_mapping` entry by
sending a reply whose payload is an error ToolResult (isError true) —
never leaving the call unanswered; the demo worker's loop, by contrast,
only answers `demo_tool_python` and leaves any other tool name unanswered
(the counterexample). -/
theorem bridge_unknown_tool_answered (env : BridgeEnv) (t : List Char)
    (call_id input : JVal)
    (hunknown : toolMappingKeys.any (fun k => decide (t = k)) = false) :
    ∃ r, listen_step env (reverseEnvelope (.jstr t) call_id input) =
        .replied call_id r ∧
      isErrorOf r = some (.jbool true) := by
  have hstep : listen_step env (reverseEnvelope (.jstr t) call_id input) =
      .replied call_id (handle_tool_call env (.jstr t) input) := rfl
  rcases core_unknown env t input hunknown with hcore | hcore
  · refine ⟨mkTextResult (pystr "Error: " ++ env.excText) true, ?_, rfl⟩
    rw [hstep]
    unfold handle_tool_call
    rw [hcore]
  · refine ⟨mkTextResult (pystr "Unknown tool: " ++ t) true, ?_, rfl⟩
    rw [hstep]
    unfold handle_tool_call
    rw [hcore]

/-- A concrete collaborator environment for evaluating the bridge
dispatch on closed inputs. -/
def envDemo : BridgeEnv :=
  { sendCommand := fun _ _ => none
    screenshotB64 := none
    fileErrText := []
    dumps := fun _ => []
    render := fun _ => []
    excText := pystr "exc"
    selfIdChars := pystr "1" }

/-- Witness for the amended C5: the bridge answers the unknown tool
`nope` with an error ToolResult, echoing the peer's call id. -/
theorem bridge_unknown_tool_answered_witness :
    ∃ r, listen_step envDemo (reverseEnvelope (.jstr (pystr "nope"))
        (.jstr (pystr "abc123")) (.jobj [])) =
      .replied (.jstr (pystr "abc123")) r ∧
      isErrorOf r = some (.jbool true) :=
  bridge_unknown_tool_answered envDemo (pystr "nope")
    (.jstr (pystr "abc123")) (.jobj []) (by decide)

/-- C5 counterexample: the demo worker's dispatch loop dequeues a
well-shaped reverse-call envelope naming the unregistered tool `nope`
and sends no reply at all (it only logs `[WARN] Unknown tool:`), leaving
the call unanswered. -/
theorem demo_unknown_tool_counterexample :
    main_worker_step (fun _ => []) (reverseEnvelope (.jstr (pystr "nope"))
      (.jstr (pystr "abc123")) (.jobj [])) = .noReply := rfl

/-! Claim C7: FIFO ordering of the Reverse-Call Queue. -/

theorem sse_step_not_data {loads : List Char → Option JVal}
    {st : ReaderState} {line : List Char}
    (h : pyStartsWith (pyStrip line) (pystr "data:") = false) :
    sse_reader_step loads st line = some st := by
  cases hk : pyStartsWith (pyStrip line) (pystr ":") with
  | true => simp [sse_reader_step, hk]
  | false => simp [sse_reader_step, hk, h]

theorem sse_step_data {loads : List Char → Option JVal}
    {st : ReaderState} {line : List Char} {j : JVal}
    (hd : pyStartsWith (pyStrip line) (pystr "data:") = true)
    (hl : loads (pyStrip (afterFirst (pystr ":") (pyStrip line))) = some j) :
    sse_reader_step loads st line =
      (match classifyPayload st.pending j with
       | none => none
       | some a => some (applyAction st a)) := by
  simp [sse_reader_step, data_not_keepalive hd, hd, hl]

theorem sse_step_bad_json {loads : List Char → Option JVal}
    {st : ReaderState} {line : List Char}
    (hd : pyStartsWith (pyStrip line) (pystr "data:") = true)
    (hl : loads (pyStrip (afterFirst (pystr ":") (pyStrip line))) = none) :
    sse_reader_step loads st line = some st := by
  simp [sse_reader_step, data_not_keepalive hd, hd, hl]

/-- Whether a payload crashes the classification or is enqueued never
depends on the correlation table; only the deliver/discard distinction
does. -/
theorem classify_pending_cases (pending : List (List Char × List JVal))
    (j : JVal) :
    classifyPayload pending j = classifyPayload [] j ∨
    (∃ s, classifyPayload pending j = some (.deliver s j) ∧
      classifyPayload [] j = some .discard) := by
  cases j with
  | jnull => exact Or.inl rfl
  | jbool b => exact Or.inl rfl
  | jnum n => exact Or.inl rfl
  | jstr s => exact Or.inl rfl
  | jarr xs => exact Or.inl rfl
  | jobj kvs =>
    cases hr : dictHas kvs (pystr "reverse") with
    | true => exact Or.inl (by simp [classifyPayload, pyContainsJ, hr])
    | false =>
      cases hid : dictHas kvs (pystr "id") with
      | false =>
        exact Or.inl (by simp [classifyPayload, pyContainsJ, hr, hid])
      | true =>
        cases hv : dictGet? kvs (pystr "id") with
        | none =>
          exact Or.inl (by
            simp [classifyPayload, pyContainsJ, pySubscriptJ, hr, hid, hv])
        | some idv =>
          cases idv with
          | jnull =>
            exact Or.inl (by
              simp [classifyPayload, pyContainsJ, pySubscriptJ, hr, hid, hv])
          | jbool b =>
            exact Or.inl (by
              simp [classifyPayload, pyContainsJ, pySubscriptJ, hr, hid, hv])
          | jnum n =>
            exact Or.inl (by
              simp [classifyPayload, pyContainsJ, pySubscriptJ, hr, hid, hv])
          | jarr ys =>
            exact Or.inl (by
              simp [classifyPayload, pyContainsJ, pySubscriptJ, hr, hid, hv])
          | jobj o =>
            exact Or.inl (by
              simp [classifyPayload, pyContainsJ, pySubscriptJ, hr, hid, hv])
          | jstr s =>
            have h0 : dictHas ([] : List (List Char × List JVal)) s =
                false := rfl
            cases hps : dictHas pending s with
            | true =>
              refine Or.inr ⟨s, ?_, ?_⟩
              · simp [classifyPayload, pyContainsJ, pySubscriptJ,
                  hr, hid, hv, hps]
              · simp [classifyPayload, pyContainsJ, pySubscriptJ,
                  hr, hid, hv, h0]
            | false =>
              refine Or.inl ?_
              simp [classifyPayload, pyContainsJ, pySubscriptJ,
                hr, hid, hv, hps, h0]

/-- Running the reader appends the decoded reverse-call payloads, in
decode order, to whatever the queue already holds. -/
theorem reader_run_queue (loads : List Char → Option JVal) :
    ∀ (lines : List (List Char)) (st : ReaderState),
    (sse_reader_run loads st lines).1.reverseQueue =
      st.reverseQueue ++ decodedReverse loads lines := by
  intro lines
  induction lines with
  | nil => intro st; simp [sse_reader_run, decodedReverse]
  | cons l ls ih =>
    intro st
    by_cases hd : pyStartsWith (pyStrip l) (pystr "data:") = true
    · cases hl : loads (pyStrip (afterFirst (pystr ":") (pyStrip l))) with
      | none =>
        rw [show sse_reader_run loads st (l :: ls) =
            sse_reader_run loads st ls by
          simp [sse_reader_run, sse_step_bad_json hd hl]]
        rw [ih st]
        simp [decodedReverse, hd, hl]
      | some j =>
        rcases classify_pending_cases st.pending j with heq | ⟨s, hp, hnil⟩
        · cases hc : classifyPayload [] j with
          | none =>
            rw [show sse_reader_run loads st (l :: ls) = (st, true) by
              simp [sse_reader_run, sse_step_data hd hl, heq, hc]]
            simp [decodedReverse, hd, hl, hc]
          | some a =>
            rw [show sse_reader_run loads st (l :: ls) =
                sse_reader_run loads (applyAction st a) ls by
              simp [sse_reader_run, sse_step_data hd hl, heq, hc]]
            rw [ih (applyAction st a)]
            cases a with
            | enqueue p =>
              simp [decodedReverse, hd, hl, hc, applyAction]
            | deliver s p =>
              simp [decodedReverse, hd, hl, hc, applyAction]
            | discard =>
              simp [decodedReverse, hd, hl, hc, applyAction]
        · rw [show sse_reader_run loads st (l :: ls) =
              sse_reader_run loads (applyAction st (.deliver s j)) ls by
            simp [sse_reader_run, sse_step_data hd hl, hp]]
          rw [ih (applyAction st (.deliver s j))]
          simp [decodedReverse, hd, hl, hnil, applyAction]
    · rw [Bool.not_eq_true] at hd
      rw [show sse_reader_run loads st (l :: ls) =
          sse_reader_run loads st ls by
        simp [sse_reader_run, sse_step_not_data hd]]
      rw [ih st]
      simp [decodedReverse, hd]

theorem drainAll_eq (q : List JVal) : drainAll q = q := by
  induction q with
  | nil => rfl
  | cons x xs ih => simp [drainAll, ih]

/-- C7: starting from an empty Reverse-Call Queue, draining the queue
after the reader has processed the stream's lines yields exactly the
reverse-call payloads the reader decoded, in decode order — the FIFO
`queue.Queue` preserves the Stream Reader's enqueue order for the
dispatch loop, however many envelopes accumulate before any is
consumed. -/
theorem reverse_queue_fifo (loads : List Char → Option JVal)
    (pending0 : List (List Char × List JVal))
    (lines : List (List Char)) :
    drainAll ((sse_reader_run loads ⟨pending0, []⟩ lines).1.reverseQueue) =
      decodedReverse loads lines := by
  rw [drainAll_eq, reader_run_queue]
  simp

end BlenderMCP
